import Mathlib

/-!
Verification development for the vehicle-rental system
(`backend/server.js`, `frontend/src/app.jsx`).

Calendar dates: the program passes dates around as `YYYY-MM-DD` strings;
both MySQL `DATE` comparison (backend) and dayjs day-granularity
comparison/difference (frontend) order them as calendar days.  We embed a
date as an `Int` day index, order-isomorphic to the calendar.  Concrete
dates in the claims all lie inside May 2024, so we encode them as
`YYYYMMDD` numerals (e.g. `20240501`), which within a single month is both
order- and difference-preserving.
-/

namespace Backend

/-- A persisted row of the `bookings` table (`server.js` model `Booking`;
the auto-increment `id` plays no role in any claim and is omitted). -/
structure BookingRow where
  firstName : String
  lastName  : String
  vehicleId : Int
  startDate : Int
  endDate   : Int
deriving DecidableEq, Repr

/-- The four-case `Op.or` disjunction of the `Booking.findAll` query in the
`POST /api/bookings` handler, for an existing booking `bStart..bEnd`
against the requested range `s..e`:
case 1 `start_date BETWEEN s AND e`; case 2 `end_date BETWEEN s AND e`;
case 3 `start_date <= s AND end_date >= e`;
case 4 `start_date >= s AND end_date <= e`. -/
def conflictCases (bStart bEnd s e : Int) : Bool :=
  (decide (s ≤ bStart) && decide (bStart ≤ e)) ||
  (decide (s ≤ bEnd) && decide (bEnd ≤ e)) ||
  (decide (bStart ≤ s) && decide (e ≤ bEnd)) ||
  (decide (s ≤ bStart) && decide (bEnd ≤ e))

/-- The spec's closed-interval overlap contract (§4.1):
`overlaps(a, b) iff a.start <= b.end AND b.start <= a.end`.
Modelled from the spec: this is the reference predicate the spec states,
kept separate so it can be compared with the enumerated-cases query the
backend actually issues. -/
def overlapsCI (aStart aEnd bStart bEnd : Int) : Bool :=
  decide (aStart ≤ bEnd) && decide (bStart ≤ aEnd)

/-- The `Booking.findAll` call of the handler: all stored bookings for
`vehicleId` satisfying the four-case disjunction against `s..e`. -/
def findOverlaps (store : List BookingRow) (v s e : Int) : List BookingRow :=
  store.filter (fun b => b.vehicleId == v && conflictCases b.startDate b.endDate s e)

/-- Outcome of the `POST /api/bookings` handler:
`badRequest` = HTTP 400, `conflict` = HTTP 409,
`created b` = HTTP 201 with the new booking. -/
inductive PostResult where
  | badRequest : PostResult
  | conflict : PostResult
  | created : BookingRow → PostResult
deriving DecidableEq, Repr

/-- The decision-plus-insert tail of the handler, taking the result of the
`findAll` snapshot: `existingBookings.length > 0` yields 409 and leaves the
store unchanged; otherwise `Booking.create` appends the new row and yields
201. Split from the read so that interleavings of two handler executions
can be expressed (the handler wraps the read and the insert in no
transaction). -/
def insertPhase (snapshot : List BookingRow) (store : List BookingRow)
    (fn ln : String) (v s e : Int) : PostResult × List BookingRow :=
  if snapshot.isEmpty then
    let nb : BookingRow := ⟨fn, ln, v, s, e⟩
    (PostResult.created nb, store ++ [nb])
  else
    (PostResult.conflict, store)

/-- Request body of `POST /api/bookings`.  Each field is `none` when absent
from the JSON body.  A present name may be the empty string and a present
`vehicleId` may be `0`; those are the JavaScript-falsy present values the
handler's truthiness test also rejects.  (A present date string is always
truthy, so dates carry no falsy present value here.) -/
structure Req where
  firstName : Option String
  lastName  : Option String
  vehicleId : Option Int
  startDate : Option Int
  endDate   : Option Int
deriving DecidableEq, Repr

/-- The handler's guard `!firstName || !lastName || !vehicleId ||
!startDate || !endDate`, negated: `true` iff every required field is
present and truthy. -/
def reqTruthy (r : Req) : Bool :=
  match r.firstName, r.lastName, r.vehicleId, r.startDate, r.endDate with
  | some fn, some ln, some v, some _, some _ =>
      !(fn == "" || ln == "" || v == 0)
  | _, _, _, _, _ => false

/-- The `POST /api/bookings` handler run to completion with no concurrent
interference: truthiness check, then `findAll` with the four-case overlap
query, then 409 or `create`. -/
def postBookings (store : List BookingRow) (r : Req) :
    PostResult × List BookingRow :=
  match r.firstName, r.lastName, r.vehicleId, r.startDate, r.endDate with
  | some fn, some ln, some v, some s, some e =>
      if fn == "" || ln == "" || v == 0 then
        (PostResult.badRequest, store)
      else
        insertPhase (findOverlaps store v s e) store fn ln v s e
  | _, _, _, _, _ => (PostResult.badRequest, store)

/-- Interleaved execution of two handler calls in the order
read₁, read₂, write₁, write₂.  Because the handler runs `findAll` and
`create` with no transaction, lock, or uniqueness constraint, the store
may serve both reads before either insert lands; this definition is that
schedule (both requests assumed past the field-truthiness guard). -/
def raceOutcome (store : List BookingRow)
    (fn1 ln1 : String) (v1 s1 e1 : Int)
    (fn2 ln2 : String) (v2 s2 e2 : Int) :
    PostResult × PostResult × List BookingRow :=
  let snap1 := findOverlaps store v1 s1 e1
  let snap2 := findOverlaps store v2 s2 e2
  let p1 := insertPhase snap1 store fn1 ln1 v1 s1 e1
  let p2 := insertPhase snap2 p1.2 fn2 ln2 v2 s2 e2
  (p1.1, p2.1, p2.2)

end Backend

namespace Frontend

/-!
Model of the booking wizard in `frontend/src/app.jsx`.  The file contains
two structurally identical variants of the flow; for every construct
modelled here (`formReducer`/`bookingFormReducer`, `validateStep`,
`handleNext`, `handlePrev`, the `UPDATE_MULTIPLE` dispatches of the
selection cards, and the `rentalDays`/`totalPrice` derivation in
`allSteps`) the two variants agree, so a single definition covers both.

Field encodings: `wheels` is the string `''`/`'2'`/`'4'` exactly as in the
source; `vehicleType` and `specificModel` hold a numeric id or `''`
(unset), embedded as `Option Int` with `none` for `''`; `startDate` /
`endDate` are the `YYYY-MM-DD` strings (`''` unset), embedded as
`Option Int` day indexes; `startDateObj` / `endDateObj` are the dayjs
objects (`null` unset), likewise `Option Int` day indexes.  `errors` is
the `errors` object of the form state, as an association list.
-/

/-- The reducer-owned form state (`initialState` of `BookingProvider`). -/
structure FormState where
  firstName : String
  lastName : String
  wheels : String
  vehicleType : Option Int
  specificModel : Option Int
  startDate : Option Int
  endDate : Option Int
  startDateObj : Option Int
  endDateObj : Option Int
  errors : List (String × String)
deriving DecidableEq, Repr

/-- The empty draft the wizard mounts with. -/
def initialForm : FormState :=
  ⟨"", "", "", none, none, none, none, none, none, []⟩

/-- A partial form update, the `payload` of an `UPDATE_MULTIPLE` dispatch
(or the singleton `\x7b [field]: value \x7d` of an `UPDATE_FIELD`): `none`
means the field is absent from the payload and the spread keeps the old
value.  No payload in the source ever patches `errors`. -/
structure Patch where
  firstName : Option String := none
  lastName : Option String := none
  wheels : Option String := none
  vehicleType : Option (Option Int) := none
  specificModel : Option (Option Int) := none
  startDate : Option (Option Int) := none
  endDate : Option (Option Int) := none
  startDateObj : Option (Option Int) := none
  endDateObj : Option (Option Int) := none
deriving DecidableEq, Repr

/-- Object-spread `\x7b ...state, ...payload \x7d`. -/
def applyPatch (f : FormState) (p : Patch) : FormState :=
  { firstName := p.firstName.getD f.firstName
    lastName := p.lastName.getD f.lastName
    wheels := p.wheels.getD f.wheels
    vehicleType := p.vehicleType.getD f.vehicleType
    specificModel := p.specificModel.getD f.specificModel
    startDate := p.startDate.getD f.startDate
    endDate := p.endDate.getD f.endDate
    startDateObj := p.startDateObj.getD f.startDateObj
    endDateObj := p.endDateObj.getD f.endDateObj
    errors := f.errors }

/-- Actions of `formReducer` / `bookingFormReducer`.  `UPDATE_FIELD field
value` spreads a one-field object, so it is `updateMultiple` of a
singleton patch. -/
inductive Action where
  | updateMultiple : Patch → Action
  | resetForm : FormState → Action
  | setErrors : List (String × String) → Action
  | clearErrors : Action
deriving DecidableEq, Repr

/-- The reducer `formReducer` (first variant) / `bookingFormReducer` (second variant);
the two switch statements are identical on every dispatched action. -/
def formReducer (state : FormState) (action : Action) : FormState :=
  match action with
  | Action.updateMultiple p => applyPatch state p
  | Action.resetForm f0 => f0
  | Action.setErrors e => { state with errors := e }
  | Action.clearErrors => { state with errors := [] }

/-- The wizard state around the reducer: `currentStep` and `bookingError`
are separate `useState` cells; `dispatch` never touches them. -/
structure WizardState where
  form : FormState
  step : Int
  bookingError : Option String
deriving DecidableEq, Repr

/-- A `dispatch` call: only the reducer-owned form state changes. -/
def dispatchW (w : WizardState) (a : Action) : WizardState :=
  { w with form := formReducer w.form a }

/-- The wheel-class `SelectionCard`'s `onClick` dispatch:
`UPDATE_MULTIPLE \x7b wheels, vehicleType: '', specificModel: '' \x7d`.
This is how a `wheelClass` write is performed by the app. -/
def wheelsCardAction (w : String) : Action :=
  Action.updateMultiple
    { wheels := some w, vehicleType := some none, specificModel := some none }

/-- The category `SelectionCard`'s `onClick` dispatch:
`UPDATE_MULTIPLE \x7b vehicleType: type.id, specificModel: '' \x7d`. -/
def categoryCardAction (t : Int) : Action :=
  Action.updateMultiple { vehicleType := some (some t), specificModel := some none }

/-- The model card's `onClick` dispatch:
`UPDATE_FIELD specificModel model.id`. -/
def modelCardAction (m : Int) : Action :=
  Action.updateMultiple { specificModel := some (some m) }

/-- The `firstName` input's `onChange` dispatch (`UPDATE_FIELD`). -/
def firstNameAction (v : String) : Action :=
  Action.updateMultiple { firstName := some v }

/-- JavaScript `String.prototype.trim`: strip whitespace from both ends.
(Kernel-computable counterpart of the runtime's trim, used so that
concrete validator runs evaluate inside proofs.) -/
def jsTrim (s : String) : String :=
  String.mk (((s.data.dropWhile Char.isWhitespace).reverse.dropWhile
    Char.isWhitespace).reverse)

/-- Validation `validateStep(step)`: the `newErrors` object built for the given step
from the current form state.  Step 0 records an error for a name that is
blank after trimming or shorter than two characters (the two variants
phrase this as two `if`s or one; the recorded-error condition is the
same); step 4 records `startDate`/`endDate` errors for missing dates and a
`dateRange` error when both are present and
`dayjs(startDate).isAfter(dayjs(endDate))`, i.e. start > end at day
granularity. -/
def validateStep (step : Int) (f : FormState) : List (String × String) :=
  if step = 0 then
    (if jsTrim f.firstName = "" ∨ f.firstName.length < 2 then
       [("firstName", "Valid first name is required")] else []) ++
    (if jsTrim f.lastName = "" ∨ f.lastName.length < 2 then
       [("lastName", "Valid last name is required")] else [])
  else if step = 1 then
    (if f.wheels = "" then [("wheels", "Please select wheel type")] else [])
  else if step = 2 then
    (if f.vehicleType = none then
       [("vehicleType", "Please select a vehicle type")] else [])
  else if step = 3 then
    (if f.specificModel = none then
       [("specificModel", "Please select a specific model")] else [])
  else if step = 4 then
    (if f.startDate = none then [("startDate", "Start date is required")] else []) ++
    (if f.endDate = none then [("endDate", "End date is required")] else []) ++
    (match f.startDate, f.endDate with
     | some s, some e =>
         if e < s then [("dateRange", "End date must be after start date")] else []
     | _, _ => [])
  else []

/-- Advance `handleNext`: runs `validateStep(currentStep)` (which dispatches
`SET_ERRORS` with the computed `newErrors`); when no errors were found it
clears the booking error, increments `currentStep` by one and dispatches
`CLEAR_ERRORS`; otherwise the step and booking error are left alone and
the populated `newErrors` stand. -/
def handleNext (w : WizardState) : WizardState :=
  let errs := validateStep w.step w.form
  let w1 := dispatchW w (Action.setErrors errs)
  if errs.isEmpty then
    dispatchW { w1 with step := w1.step + 1, bookingError := none } Action.clearErrors
  else
    w1

/-- Retreat `handlePrev`: unconditionally `setCurrentStep(currentStep - 1)` and
`CLEAR_ERRORS`; the function itself has no `step > 0` guard (the UI's Back
button carries `disabled=\x7bcurrentStep === 0\x7d`, so the browser never
invokes it at step 0). -/
def handlePrev (w : WizardState) : WizardState :=
  dispatchW { w with step := w.step - 1 } Action.clearErrors

/-- The Back button as rendered: a click reaches `handlePrev` only when
the button is not disabled, i.e. when `currentStep ≠ 0`. -/
def backButtonClick (w : WizardState) : WizardState :=
  if w.step = 0 then w else handlePrev w

/-- A catalog vehicle (`VEHICLES_DATA` entry).  All `price_per_day` values
in the catalog are whole currency units, embedded as `Int`. -/
structure Vehicle where
  id : Int
  name : String
  typeId : Int
  pricePerDay : Int
  isAvailable : Bool
deriving DecidableEq, Repr

/-- The `rentalDays` derivation of `allSteps`:
`(startDateObj && endDateObj && endDateObj.isAfter(startDateObj, 'day')) ?
endDateObj.diff(startDateObj, 'day') + 1 : 0`. -/
def rentalDays (sObj eObj : Option Int) : Int :=
  match sObj, eObj with
  | some s, some e => if s < e then (e - s) + 1 else 0
  | _, _ => 0

/-- The `totalPrice` derivation of `allSteps`:
`selectedVehicle && rentalDays > 0 ? selectedVehicle.price_per_day *
rentalDays : 0`. -/
def totalPrice (veh : Option Vehicle) (sObj eObj : Option Int) : Int :=
  match veh with
  | some v => if 0 < rentalDays sObj eObj then v.pricePerDay * rentalDays sObj eObj else 0
  | none => 0

end Frontend

/-!
Concrete fixtures used by the claim theorems below.
-/

/-- Existing booking for vehicle 1 over 2024-05-03..2024-05-05. -/
def mayStore : List Backend.BookingRow := [⟨"Bob", "Kumar", 1, 20240503, 20240505⟩]

/-- Request for vehicle 1 over 2024-05-01..2024-05-03 (touches the stored
booking at its boundary day). -/
def mayReq : Backend.Req := ⟨some "Ann", some "Lee", some 1, some 20240501, some 20240503⟩

/-- Request whose dates are reversed: start 2024-05-05, end 2024-05-01. -/
def reqBackwards : Backend.Req := ⟨some "Ann", some "Lee", some 1, some 20240505, some 20240501⟩

/-- Request with a present but empty `firstName`. -/
def reqEmptyName : Backend.Req := ⟨some "", some "Lee", some 1, some 20240501, some 20240503⟩

/-- Request with no `firstName` field at all. -/
def reqNoFirst : Backend.Req := ⟨none, some "Lee", some 1, some 20240501, some 20240503⟩

/-- Row inserted by the first racing request of claim C1. -/
def raceRow1 : Backend.BookingRow := ⟨"Ann", "Lee", 1, 20240501, 20240503⟩

/-- Row inserted by the second racing request of claim C1. -/
def raceRow2 : Backend.BookingRow := ⟨"Bob", "Roy", 1, 20240502, 20240504⟩

/-- Any handler run that got past the truthiness guard answers 201 or 409,
never 400. -/
lemma insertPhase_fst_ne_badRequest (snapshot store : List Backend.BookingRow)
    (fn ln : String) (v s e : Int) :
    (Backend.insertPhase snapshot store fn ln v s e).1 ≠ Backend.PostResult.badRequest := by
  unfold Backend.insertPhase
  by_cases h : snapshot.isEmpty <;> simp [h]

/-- A request failing the truthiness guard is answered 400 with the store
untouched. -/
lemma postBookings_of_falsy (store : List Backend.BookingRow) (r : Backend.Req)
    (h : Backend.reqTruthy r = false) :
    Backend.postBookings store r = (Backend.PostResult.badRequest, store) := by
  rcases r with ⟨fn, ln, v, s, e⟩
  cases fn <;> cases ln <;> cases v <;> cases s <;> cases e <;>
    simp_all [Backend.reqTruthy, Backend.postBookings]

/-- Claim C1: the claim says the check-then-insert of `POST /api/bookings`
runs as a single atomic unit so that of two concurrent overlapping
requests at most one succeeds.  The handler in fact wraps `findAll` and
`create` in no transaction, lock, or uniqueness constraint, so the
interleaving read-read-write-write is admitted; on an empty store and two
overlapping requests for vehicle 1 it returns 201 to both and persists two
overlapping rows, while a sequential second run would have received 409.
This evaluates the code at that schedule. -/
theorem c1_race_admits_double_insert :
    Backend.raceOutcome [] "Ann" "Lee" 1 20240501 20240503 "Bob" "Roy" 1 20240502 20240504 =
      (Backend.PostResult.created raceRow1, Backend.PostResult.created raceRow2,
       [raceRow1, raceRow2]) ∧
    Backend.overlapsCI 20240501 20240503 20240502 20240504 = true ∧
    (Backend.postBookings [raceRow1]
        ⟨some "Bob", some "Roy", some 1, some 20240502, some 20240504⟩).1 =
      Backend.PostResult.conflict := by
  refine ⟨?_, ?_, ?_⟩ <;> decide

/-- Claim C2: over valid ranges, the backend's four-case `Op.or`
disjunction decides conflict exactly as the closed-interval test
`a.start <= b.end AND b.start <= a.end` does. -/
theorem c2_four_cases_iff_closed_interval
    (aS aE bS bE : Int) (ha : aS ≤ aE) (hb : bS ≤ bE) :
    Backend.conflictCases bS bE aS aE = true ↔
      Backend.overlapsCI aS aE bS bE = true := by
  simp only [Backend.conflictCases, Backend.overlapsCI, Bool.or_eq_true,
    Bool.and_eq_true, decide_eq_true_eq]
  omega

/-- Witness for C2 at the ranges 2024-05-01..03 and 2024-05-03..05. -/
theorem c2_witness :
    (20240501 : Int) ≤ 20240503 ∧ (20240503 : Int) ≤ 20240505 ∧
    (Backend.conflictCases 20240503 20240505 20240501 20240503 = true ↔
      Backend.overlapsCI 20240501 20240503 20240503 20240505 = true) :=
  ⟨by decide, by decide,
   c2_four_cases_iff_closed_interval 20240501 20240503 20240503 20240505
     (by decide) (by decide)⟩

/-- Claim C3: ranges that merely touch at one boundary day conflict under
the backend's predicate, and concretely a `POST /api/bookings` for vehicle
1 over 2024-05-01..2024-05-03 against a store holding a booking for
2024-05-03..2024-05-05 on that vehicle is answered 409 with the store
unchanged. -/
theorem c3_touching_ranges_conflict :
    (∀ aS aE bS bE : Int, aS ≤ aE → bS ≤ bE → aE = bS →
      Backend.conflictCases bS bE aS aE = true) ∧
    Backend.postBookings mayStore mayReq = (Backend.PostResult.conflict, mayStore) := by
  constructor
  · intro aS aE bS bE ha hb ht
    simp only [Backend.conflictCases, Bool.or_eq_true, Bool.and_eq_true,
      decide_eq_true_eq]
    omega
  · decide

/-- Witness for C3 at the claim's concrete ranges. -/
theorem c3_witness :
    Backend.conflictCases 20240503 20240505 20240501 20240503 = true :=
  c3_touching_ranges_conflict.1 20240501 20240503 20240503 20240505
    (by decide) (by decide) rfl

/-- Claim C4 counterexample: the claim says a request whose start is not
before its end is rejected 400 before the conflict check with no insert.
The handler validates only field truthiness: the reversed-dates request
passes the guard, reaches the conflict check, and on an empty store is
inserted and answered 201. -/
theorem c4_counterexample :
    Backend.postBookings [] reqBackwards =
      (Backend.PostResult.created ⟨"Ann", "Lee", 1, 20240505, 20240501⟩,
       [⟨"Ann", "Lee", 1, 20240505, 20240501⟩]) ∧
    ¬ (20240505 : Int) < 20240501 := by
  refine ⟨?_, ?_⟩ <;> decide

/-- Claim C4 as amended: the handler fails fast with 400 and no insert
exactly when some required field is missing or falsy; every request
passing that truthiness guard proceeds to the conflict check (no
start-before-end or not-in-the-past validation exists server-side). -/
theorem c4_presence_only_validation (store : List Backend.BookingRow) (r : Backend.Req) :
    ((Backend.postBookings store r).1 = Backend.PostResult.badRequest ↔
       Backend.reqTruthy r = false) ∧
    (Backend.reqTruthy r = false →
       Backend.postBookings store r = (Backend.PostResult.badRequest, store)) ∧
    (∀ fn ln v s e, r = ⟨some fn, some ln, some v, some s, some e⟩ →
       Backend.reqTruthy r = true →
       Backend.postBookings store r =
         Backend.insertPhase (Backend.findOverlaps store v s e) store fn ln v s e) := by
  refine ⟨⟨fun h1 => ?_, fun h2 => ?_⟩, fun h2 => postBookings_of_falsy store r h2, ?_⟩
  · by_contra hne
    have ht : Backend.reqTruthy r = true := by
      cases hvt : Backend.reqTruthy r
      · exact absurd hvt hne
      · rfl
    rcases r with ⟨fn, ln, v, s, e⟩
    cases fn <;> cases ln <;> cases v <;> cases s <;> cases e <;>
      simp_all [Backend.reqTruthy, Backend.postBookings]
    exact insertPhase_fst_ne_badRequest _ _ _ _ _ _ _ h1
  · rw [postBookings_of_falsy store r h2]
  · intro fn ln v s e hr ht
    subst hr
    simp_all [Backend.reqTruthy, Backend.postBookings]

/-- Witness for C4's amended claim: a request missing `firstName` is
answered 400. -/
theorem c4_witness :
    (Backend.postBookings [] reqNoFirst).1 = Backend.PostResult.badRequest :=
  ((c4_presence_only_validation [] reqNoFirst).1).mpr (by decide)

/-- Claim C10: any request with a required field absent or
JavaScript-falsy (a missing field, an empty-string name, `vehicleId` 0, a
missing date) is answered 400 and the store is left unchanged. -/
theorem c10_falsy_fields_rejected (store : List Backend.BookingRow) (r : Backend.Req)
    (h : r.firstName = none ∨ r.firstName = some "" ∨
         r.lastName = none ∨ r.lastName = some "" ∨
         r.vehicleId = none ∨ r.vehicleId = some 0 ∨
         r.startDate = none ∨ r.endDate = none) :
    Backend.postBookings store r = (Backend.PostResult.badRequest, store) := by
  apply postBookings_of_falsy
  rcases r with ⟨fn, ln, v, s, e⟩
  cases fn <;> cases ln <;> cases v <;> cases s <;> cases e <;>
    simp_all [Backend.reqTruthy]
  tauto

/-- Witness for C10: a present-but-empty `firstName` against a non-empty
store is rejected with the store unchanged. -/
theorem c10_witness :
    Backend.postBookings mayStore reqEmptyName =
      (Backend.PostResult.badRequest, mayStore) :=
  c10_falsy_fields_rejected mayStore reqEmptyName (Or.inr (Or.inl rfl))

/-- Form state holding equal start and end dates (2024-05-01 twice). -/
def fEqualDates : Frontend.FormState :=
  { Frontend.initialForm with startDate := some 20240501, endDate := some 20240501 }

/-- Wizard state at the initial step with an empty draft. -/
def wInitial : Frontend.WizardState := ⟨Frontend.initialForm, 0, none⟩

/-- Wizard state at the initial step whose names pass the Details
validator while nothing downstream is chosen. -/
def wNamesOnly : Frontend.WizardState :=
  ⟨{ Frontend.initialForm with firstName := "Asha", lastName := "Rao" }, 0, none⟩

/-- Wizard state in mid-flight with a populated draft, a validation error
and a booking error, at step 3. -/
def wMidFlight : Frontend.WizardState :=
  ⟨{ firstName := "Asha", lastName := "Rao", wheels := "4",
     vehicleType := some 3, specificModel := some 7,
     startDate := some 20240501, endDate := some 20240503,
     startDateObj := some 20240501, endDateObj := some 20240503,
     errors := [("specificModel", "Please select a specific model")] },
   3, some "boom"⟩

/-- Vehicle fixture for the pricing claim (pricePerDay 1000). -/
def vQuote : Frontend.Vehicle := ⟨7, "City", 3, 1000, true⟩

/-- Claim C5 counterexample: the claim says the Dates-step validator
succeeds only when `range.start < range.end` and start is not before the
current date.  With start and end both 2024-05-01 the validator succeeds
(its only range test is `start.isAfter(end)`), although `start < end`
fails; the validator also consults no current date at all. -/
theorem c5_counterexample :
    Frontend.validateStep 4 fEqualDates = [] ∧ ¬ (20240501 : Int) < 20240501 := by
  refine ⟨?_, ?_⟩ <;> decide

/-- Claim C5 as amended: the Dates-step validator succeeds exactly when
both dates are set and the start is not after the end — equal start and
end is accepted, and no comparison against the current date is
performed (the validator's inputs are the two date fields alone). -/
theorem c5_dates_validator_characterization (f : Frontend.FormState) :
    Frontend.validateStep 4 f = [] ↔
      ∃ s e : Int, f.startDate = some s ∧ f.endDate = some e ∧ s ≤ e := by
  rcases f with ⟨fn, ln, wh, vt, sm, sd, ed, sdo, edo, errs⟩
  cases sd <;> cases ed <;> simp [Frontend.validateStep]

/-- Claim C6 counterexample: the claim says every set range with
`start <= end` has inclusive duration `(end - start) + 1`, so duration 1
at a single-day range.  The code's `rentalDays` requires
`end.isAfter(start)` and otherwise yields 0: at 2024-05-01..2024-05-01 it
returns 0 where the claim requires 1. -/
theorem c6_counterexample :
    Frontend.rentalDays (some 20240501) (some 20240501) = 0 ∧
    ((20240501 : Int) - 20240501) + 1 = 1 := by
  refine ⟨?_, ?_⟩ <;> decide

/-- Claim C6 as amended: for every set range with `start < end` the
derived rental-day count is the inclusive `(end - start) + 1` and the
quoted total is `pricePerDay * rentalDays`; a set range with
`start == end` instead yields 0 days (and a 0 quote). -/
theorem c6_duration_and_price (s e : Int) (v : Frontend.Vehicle) (h : s < e) :
    Frontend.rentalDays (some s) (some e) = (e - s) + 1 ∧
    Frontend.totalPrice (some v) (some s) (some e) = v.pricePerDay * ((e - s) + 1) ∧
    Frontend.rentalDays (some s) (some s) = 0 := by
  refine ⟨?_, ?_, ?_⟩
  · simp [Frontend.rentalDays, h]
  · simp [Frontend.totalPrice, Frontend.rentalDays, h]
    omega
  · simp [Frontend.rentalDays]

/-- Witness for C6's amended claim at the spec's quote scenario:
2024-05-01..2024-05-03 is 3 days and costs 3000 at pricePerDay 1000. -/
theorem c6_witness :
    Frontend.rentalDays (some 20240501) (some 20240503) = 3 ∧
    Frontend.totalPrice (some vQuote) (some 20240501) (some 20240503) = 3000 := by
  have h := c6_duration_and_price 20240501 20240503 vQuote (by decide)
  exact ⟨h.1.trans (by decide), h.2.1.trans (by decide)⟩

/-- Claim C7: a wheel-class write (the wheel `SelectionCard` dispatch)
also clears `vehicleType` and `specificModel`, a category write clears
`specificModel`, and no form dispatch of any kind changes the wizard's
step. -/
theorem c7_cascading_clear :
    (∀ (w : Frontend.WizardState) (val : String),
        (Frontend.dispatchW w (Frontend.wheelsCardAction val)).form.wheels = val ∧
        (Frontend.dispatchW w (Frontend.wheelsCardAction val)).form.vehicleType = none ∧
        (Frontend.dispatchW w (Frontend.wheelsCardAction val)).form.specificModel = none) ∧
    (∀ (w : Frontend.WizardState) (t : Int),
        (Frontend.dispatchW w (Frontend.categoryCardAction t)).form.vehicleType = some t ∧
        (Frontend.dispatchW w (Frontend.categoryCardAction t)).form.specificModel = none) ∧
    (∀ (w : Frontend.WizardState) (a : Frontend.Action),
        (Frontend.dispatchW w a).step = w.step) :=
  ⟨fun _ _ => ⟨rfl, rfl, rfl⟩, fun _ _ => ⟨rfl, rfl⟩, fun _ _ => rfl⟩

/-- Claim C8: `handleNext` either increments the step by exactly one
(validator passed; errors cleared) or leaves the step unchanged with the
validator's errors recorded; hence a second immediate `handleNext` whose
validator fails leaves the step incremented only once. -/
theorem c8_advance_exactly_one (w : Frontend.WizardState) :
    (Frontend.validateStep w.step w.form = [] →
       (Frontend.handleNext w).step = w.step + 1 ∧
       (Frontend.handleNext w).form.errors = []) ∧
    (Frontend.validateStep w.step w.form ≠ [] →
       (Frontend.handleNext w).step = w.step ∧
       (Frontend.handleNext w).form.errors = Frontend.validateStep w.step w.form) ∧
    (Frontend.validateStep w.step w.form = [] →
     Frontend.validateStep (w.step + 1) ((Frontend.handleNext w).form) ≠ [] →
       (Frontend.handleNext (Frontend.handleNext w)).step = w.step + 1) := by
  refine ⟨fun h => ?_, fun h => ?_, fun h h2 => ?_⟩
  · simp [Frontend.handleNext, h, Frontend.dispatchW, Frontend.formReducer]
  · simp [Frontend.handleNext, Frontend.dispatchW, Frontend.formReducer,
      List.isEmpty_iff, h]
  · have hstep : (Frontend.handleNext w).step = w.step + 1 := by
      simp [Frontend.handleNext, h, Frontend.dispatchW, Frontend.formReducer]
    generalize hw1 : Frontend.handleNext w = w1 at hstep h2
    have h3 : Frontend.validateStep w1.step w1.form ≠ [] := by
      rw [hstep]
      exact h2
    have h4 : (Frontend.handleNext w1).step = w1.step := by
      simp [Frontend.handleNext, Frontend.dispatchW, Frontend.formReducer,
        List.isEmpty_iff, h3]
    rw [h4, hstep]

/-- Witness for C8: from the initial step with valid names and no wheel
class chosen, two successive advances move the step forward only once. -/
theorem c8_witness :
    (Frontend.handleNext (Frontend.handleNext wNamesOnly)).step = wNamesOnly.step + 1 :=
  (c8_advance_exactly_one wNamesOnly).2.2 (by decide) (by decide)

/-- Claim C9 counterexample: the claim says `retreat` decrements the step
only when it is positive and leaves it unchanged at the initial step.
`handlePrev` itself carries no such guard: at step 0 it moves the step to
-1 (only the Back button's `disabled` attribute keeps it from firing
there). -/
theorem c9_counterexample :
    (Frontend.handlePrev wInitial).step = -1 ∧
    (Frontend.handlePrev wInitial).step ≠ wInitial.step := by
  refine ⟨?_, ?_⟩ <;> decide

/-- Claim C9 as amended: `handlePrev` unconditionally decrements the step
by one, always clears the validation errors, and leaves every draft field
unchanged; the step-0 guard lives in the UI, whose Back button is disabled
at step 0 so a click reaches `handlePrev` only at positive steps. -/
theorem c9_retreat_frame (w : Frontend.WizardState) :
    (Frontend.handlePrev w).step = w.step - 1 ∧
    (Frontend.handlePrev w).form.errors = [] ∧
    (Frontend.handlePrev w).form.firstName = w.form.firstName ∧
    (Frontend.handlePrev w).form.lastName = w.form.lastName ∧
    (Frontend.handlePrev w).form.wheels = w.form.wheels ∧
    (Frontend.handlePrev w).form.vehicleType = w.form.vehicleType ∧
    (Frontend.handlePrev w).form.specificModel = w.form.specificModel ∧
    (Frontend.handlePrev w).form.startDate = w.form.startDate ∧
    (Frontend.handlePrev w).form.endDate = w.form.endDate ∧
    (w.step = 0 → Frontend.backButtonClick w = w) ∧
    (w.step ≠ 0 → Frontend.backButtonClick w = Frontend.handlePrev w) := by
  refine ⟨rfl, rfl, rfl, rfl, rfl, rfl, rfl, rfl, rfl, fun h => ?_, fun h => ?_⟩
  · simp [Frontend.backButtonClick, h]
  · simp [Frontend.backButtonClick, h]

/-- Witness for C9's amended claim at a mid-flight state: the step drops
from 3 to 2, errors clear, and the draft survives intact. -/
theorem c9_witness :
    (Frontend.handlePrev wMidFlight).step = wMidFlight.step - 1 ∧
    (Frontend.handlePrev wMidFlight).form.errors = [] ∧
    (Frontend.handlePrev wMidFlight).form.specificModel = wMidFlight.form.specificModel ∧
    Frontend.backButtonClick wMidFlight = Frontend.handlePrev wMidFlight := by
  have h := c9_retreat_frame wMidFlight
  exact ⟨h.1, h.2.1, h.2.2.2.2.2.2.1, h.2.2.2.2.2.2.2.2.2.2 (by decide)⟩
